import Mathlib

set_option maxRecDepth 100000

/-!
Verification of the Signal-style crypto engine of this repository.

The repository contains two variants of the engine:

* `src/signal_core.py` ("v6"): X25519 identities, an X3DH-style shared
  secret, and a symmetric ratchet whose send/receive chains advance by one
  KDF step per message.
* `src/backend/crypto/signal_core.py` ("v7"): the same identity and X3DH
  code, but the ratchet is collapsed to a single static `root_key`; every
  message key is derived from it and no state ever changes.

Byte strings are modelled as `List Nat` (one entry per byte).  The external
library primitives (SHA-256, X25519 key exchange, AES-GCM) are not part of
the repository; they are passed to every definition as explicit function
parameters (`sha`, `dh`/`pubKey`, `aeEnc`/`aeDec`), and concrete toy
instances satisfying their algebraic contracts are supplied for witnesses
and counterexamples.  The base64 transport encoding (`b64e`/`b64d`) is a
bijection between byte strings and their base64 text and is modelled as the
identity on byte strings; no claim depends on the text form.  Python
`plaintext.encode("utf-8")` / `.decode("utf-8")` is likewise a bijection
between strings and their encodings and plaintexts are modelled directly as
byte strings.  Randomness (`X25519PrivateKey.generate()`, `os.urandom(12)`)
is passed in as explicit arguments (the generated private keys, the nonce).
-/

namespace SC

/-- A byte string: one `Nat` per byte. -/
abbrev Bytes := List Nat

/-- Python byte literal b"sig". -/
def bs_sig : Bytes := [115, 105, 103]

/-- Python byte literal b"X3DH". -/
def bs_X3DH : Bytes := [88, 51, 68, 72]

/-- Python byte literal b"msg". -/
def bs_msg : Bytes := [109, 115, 103]

/-- Python byte literal b"ck". -/
def bs_ck : Bytes := [99, 107]

/-- Python byte literal b"send". -/
def bs_send : Bytes := [115, 101, 110, 100]

/-- Python byte literal b"recv". -/
def bs_recv : Bytes := [114, 101, 99, 118]

/-- Python byte literal b"msg_key_v1". -/
def bs_msg_key_v1 : Bytes := [109, 115, 103, 95, 107, 101, 121, 95, 118, 49]

/-- Base64 encoding (`b64e` in both signal_core files).  The base64 codec is
a bijection between byte strings and their text form; it is modelled as the
identity on byte strings. -/
def b64e (b : Bytes) : Bytes := b

/-- Base64 decoding (`b64d` in both signal_core files), inverse of `b64e`. -/
def b64d (s : Bytes) : Bytes := s

/-- The incremental hash object `hashes.Hash(hashes.SHA256())`: `update`
appends data, `finalize` applies the digest function to everything fed in. -/
structure Hash where
  acc : Bytes
deriving DecidableEq

/-- h.update(data) appends data to the stream being hashed. -/
def Hash.update (h : Hash) (data : Bytes) : Hash := Hash.mk (h.acc ++ data)

/-- h.finalize() digests the accumulated stream. -/
def Hash.finalize (sha : Bytes → Bytes) (h : Hash) : Bytes := sha h.acc

/-- The `hkdf` helper of `src/signal_core.py` lines 31-38 and
`src/backend/crypto/signal_core.py` lines 48-59:
feed salt, secret, info into one SHA-256 digest and truncate to `length`.
Python defaults are salt=b"", info=b"", length=32; callers here always pass
all arguments explicitly.  `length` is a Python non-negative int. -/
def hkdf (sha : Bytes → Bytes) (secret : Bytes) (salt : Bytes) (info : Bytes)
    (length : Nat) : Bytes :=
  let h0 := Hash.mk []
  let h1 := h0.update salt
  let h2 := h1.update secret
  let h3 := h2.update info
  let k := h3.finalize sha
  k.take length

/-- The `IdentityBundle` dataclass of `src/signal_core.py` lines 41-47; the
dict returned by `generate_identity` in `src/backend/crypto/signal_core.py`
lines 103-109 has exactly the same five fields. -/
structure IdentityBundle where
  identity_priv_b64 : Bytes
  identity_pub_b64 : Bytes
  signed_prekey_priv_b64 : Bytes
  signed_prekey_pub_b64 : Bytes
  signed_prekey_sig_b64 : Bytes
deriving DecidableEq

/-- The `generate_identity` of `src/signal_core.py` lines 65-85 and of
`src/backend/crypto/signal_core.py` lines 81-109 (identical computation;
the v6 file returns the dataclass, the v7 file the same fields as a dict).
The two freshly generated X25519 private keys are the explicit arguments
`identity_priv` and `spk_priv`; `pubKey` is the library map from an X25519
private key to its raw public bytes.  The signature field is computed as
`hkdf(spk_pub_bytes, salt=identity_priv_bytes, info=b"sig", length=32)`. -/
def generate_identity (sha : Bytes → Bytes) (pubKey : Bytes → Bytes)
    (identity_priv spk_priv : Bytes) : IdentityBundle :=
  let identity_priv_bytes := identity_priv
  let identity_pub_bytes := pubKey identity_priv
  let spk_priv_bytes := spk_priv
  let spk_pub_bytes := pubKey spk_priv
  let sig := hkdf sha spk_pub_bytes identity_priv_bytes bs_sig 32
  IdentityBundle.mk (b64e identity_priv_bytes) (b64e identity_pub_bytes)
    (b64e spk_priv_bytes) (b64e spk_pub_bytes) (b64e sig)

/-- The `recv_bundle` dict consumed by `x3dh_sender` (fields
identity_pub_b64, signed_prekey_pub_b64, signed_prekey_sig_b64). -/
structure RecvBundle where
  identity_pub_b64 : Bytes
  signed_prekey_pub_b64 : Bytes
  signed_prekey_sig_b64 : Bytes
deriving DecidableEq

/-- The `x3dh_sender` of `src/signal_core.py` lines 108-135 and of
`src/backend/crypto/signal_core.py` lines 151-193 (identical computation).
`dh p q` is the library `X25519PrivateKey.exchange`: the Diffie-Hellman
output of private key `p` with public key `q`.  The Python guard
`if onetime_prekey_pub_b64:` is true exactly when the optional argument is
neither None nor the empty string, so the `some` branch re-checks that the
decoded bytes are nonempty. -/
def x3dh_sender (sha : Bytes → Bytes) (dh : Bytes → Bytes → Bytes)
    (identity_priv_b64 : Bytes) (eph_priv_b64 : Bytes)
    (recv_bundle : RecvBundle) (onetime_prekey_pub_b64 : Option Bytes) : Bytes :=
  let ikr_pub := b64d recv_bundle.identity_pub_b64
  let spkr_pub := b64d recv_bundle.signed_prekey_pub_b64
  let iks_priv := b64d identity_priv_b64
  let eks_priv := b64d eph_priv_b64
  let dh1 := dh iks_priv spkr_pub
  let dh2 := dh eks_priv ikr_pub
  let dh3 := dh eks_priv spkr_pub
  let dh4 : Bytes :=
    match onetime_prekey_pub_b64 with
    | some opk => if opk = [] then [] else dh eks_priv (b64d opk)
    | none => []
  hkdf sha (dh1 ++ dh2 ++ dh3 ++ dh4) [] bs_X3DH 32

/-- The packet dict produced by `ratchet_encrypt` in both files:
`{"nonce_b64": ..., "ct_b64": ...}`. -/
structure Packet where
  nonce_b64 : Bytes
  ct_b64 : Bytes
deriving DecidableEq

/-- The only cryptographic exception the engines raise:
`cryptography.exceptions.InvalidTag` from `AESGCM.decrypt`. -/
inductive CryptoError where
  | invalidTag
deriving DecidableEq

/-- Decidable equality for the decryption results of the engines, so that
concrete runs can be settled by `decide`. -/
instance : DecidableEq (Except CryptoError Bytes) := fun x y =>
  match x, y with
  | Except.error a, Except.error b =>
      if h : a = b then Decidable.isTrue (congrArg Except.error h)
      else Decidable.isFalse (fun hc => h (Except.error.inj hc))
  | Except.ok a, Except.ok b =>
      if h : a = b then Decidable.isTrue (congrArg Except.ok h)
      else Decidable.isFalse (fun hc => h (Except.ok.inj hc))
  | Except.error _, Except.ok _ => Decidable.isFalse (fun hc => Except.noConfusion hc)
  | Except.ok _, Except.error _ => Decidable.isFalse (fun hc => Except.noConfusion hc)

end SC

namespace V6

open SC

/-- The `RatchetState` dataclass of `src/signal_core.py` lines 138-142. -/
structure RatchetState where
  root_key : Bytes
  chain_key_send : Bytes
  chain_key_recv : Bytes
deriving DecidableEq

/-- The `_kdf_chain` of `src/signal_core.py` lines 145-149: derive the
message key with info b"msg"+usage and the next chain key with info
b"ck"+usage, both from the same chain key. -/
def kdf_chain (sha : Bytes → Bytes) (chain_key : Bytes) (usage : Bytes) :
    Bytes × Bytes :=
  let msg_key := hkdf sha chain_key [] (bs_msg ++ usage) 32
  let new_chain := hkdf sha chain_key [] (bs_ck ++ usage) 32
  (new_chain, msg_key)

/-- The `ratchet_encrypt` of `src/signal_core.py` lines 152-166.  The
Python function mutates `state.chain_key_send` in place and returns the
packet dict; here the post-call state is returned alongside the packet.
`aeEnc key nonce pt` is `AESGCM(key).encrypt(nonce, pt, None)` and the
random `nonce` (`os.urandom(12)`) is an explicit argument. -/
def ratchet_encrypt (sha : Bytes → Bytes) (aeEnc : Bytes → Bytes → Bytes → Bytes)
    (state : RatchetState) (plaintext : Bytes) (nonce : Bytes) :
    Packet × RatchetState :=
  let step := kdf_chain sha state.chain_key_send bs_send
  let new_ck := step.1
  let msg_key := step.2
  let state1 := RatchetState.mk state.root_key new_ck state.chain_key_recv
  let ct := aeEnc msg_key nonce plaintext
  (Packet.mk (b64e nonce) (b64e ct), state1)

/-- The `ratchet_decrypt` of `src/signal_core.py` lines 169-178.  The
Python function first assigns `state.chain_key_recv = new_ck` and only then
calls `AESGCM.decrypt`, which may raise `InvalidTag`; since the state
object is mutated in place, the advanced chain key survives a raised
exception.  `aeDec key nonce ct` is `AESGCM(key).decrypt(nonce, ct, None)`,
returning `none` where the library raises `InvalidTag`.  The second
component is the state as the caller observes it after the call, in both
the success and the failure case. -/
def ratchet_decrypt (sha : Bytes → Bytes)
    (aeDec : Bytes → Bytes → Bytes → Option Bytes)
    (state : RatchetState) (packet : Packet) :
    Except CryptoError Bytes × RatchetState :=
  let step := kdf_chain sha state.chain_key_recv bs_recv
  let new_ck := step.1
  let msg_key := step.2
  let state1 := RatchetState.mk state.root_key state.chain_key_send new_ck
  let nonce := b64d packet.nonce_b64
  let ct := b64d packet.ct_b64
  match aeDec msg_key nonce ct with
  | some pt => (Except.ok pt, state1)
  | none => (Except.error CryptoError.invalidTag, state1)

end V6

namespace V7

open SC

/-- The `RatchetState` dataclass of `src/backend/crypto/signal_core.py`
lines 200-214: a single static root key, no chains, no counters. -/
structure RatchetState where
  root_key : Bytes
deriving DecidableEq

/-- The `_derive_msg_key` of `src/backend/crypto/signal_core.py`
lines 217-222: the one AES key, derived from the root key with
info b"msg_key_v1". -/
def derive_msg_key (sha : Bytes → Bytes) (root_key : Bytes) : Bytes :=
  hkdf sha root_key [] bs_msg_key_v1 32

/-- The `ratchet_encrypt` of `src/backend/crypto/signal_core.py`
lines 225-247: derive the message key from the (unchanged) root key and
encrypt.  The function returns only the packet; it performs no state
update of any kind. -/
def ratchet_encrypt (sha : Bytes → Bytes) (aeEnc : Bytes → Bytes → Bytes → Bytes)
    (state : RatchetState) (plaintext : Bytes) (nonce : Bytes) : Packet :=
  let key := derive_msg_key sha state.root_key
  let ct := aeEnc key nonce plaintext
  Packet.mk (b64e nonce) (b64e ct)

/-- The send path of `src/backend/main.py` lines 215-234 (`message_send`):
encrypt from the stored session state; nothing is written back to
`SESSIONS`, so the stored state after the call is the state before it. -/
def message_send (sha : Bytes → Bytes) (aeEnc : Bytes → Bytes → Bytes → Bytes)
    (state : RatchetState) (text : Bytes) (nonce : Bytes) :
    Packet × RatchetState :=
  (ratchet_encrypt sha aeEnc state text nonce, state)

/-- The `ratchet_decrypt` of `src/backend/crypto/signal_core.py`
lines 250-268: derive the same static key and decrypt; the state is
returned unchanged (the docstring itself notes the state does not change).
`aeDec` returns `none` where `AESGCM.decrypt` raises `InvalidTag`. -/
def ratchet_decrypt (sha : Bytes → Bytes)
    (aeDec : Bytes → Bytes → Bytes → Option Bytes)
    (state : RatchetState) (packet : Packet) :
    Except CryptoError Bytes × RatchetState :=
  let key := derive_msg_key sha state.root_key
  let nonce := b64d packet.nonce_b64
  let ct := b64d packet.ct_b64
  match aeDec key nonce ct with
  | some pt => (Except.ok pt, state)
  | none => (Except.error CryptoError.invalidTag, state)

end V7

namespace Spec

open SC

/-- Modelled from the spec: the responder side of the X3DH handshake.  No
responder-side X3DH exists under src/ (only `x3dh_sender`); spec section
4.2 says the responder recomputes the identical four DH values using its
own private keys (signed-prekey, identity, one-time-prekey) against the
initiator public identity and ephemeral keys, concatenates them in the
same fixed order, and derives the secret with the same KDF and label. -/
def x3dh_receiver (sha : Bytes → Bytes) (dh : Bytes → Bytes → Bytes)
    (identity_priv : Bytes) (spk_priv : Bytes) (opk_priv : Option Bytes)
    (sender_identity_pub : Bytes) (sender_eph_pub : Bytes) : Bytes :=
  let dh1 := dh spk_priv sender_identity_pub
  let dh2 := dh identity_priv sender_eph_pub
  let dh3 := dh spk_priv sender_eph_pub
  let dh4 : Bytes :=
    match opk_priv with
    | some opk => dh opk sender_eph_pub
    | none => []
  hkdf sha (dh1 ++ dh2 ++ dh3 ++ dh4) [] bs_X3DH 32

/-- A keyed hash of the prekey public bytes under the identity private key:
the hash of identity_priv followed by spk_pub with the domain tag b"sig",
truncated to 32 bytes.  This names the construction that claim C1 says the
signed-prekey signature is NOT. -/
def prekeyKeyedHash (sha : Bytes → Bytes) (identity_priv : Bytes)
    (spk_pub : Bytes) : Bytes :=
  (sha (identity_priv ++ spk_pub ++ bs_sig)).take 32

/-- Modelled from the spec: HMAC with a 64-byte block, as a building block
for the two-stage HKDF the spec prescribes ("full two-stage
extract-and-expand, not a single hash of concatenated inputs").  Keys
longer than the block are first hashed, then zero-padded to the block. -/
def hmac (sha : Bytes → Bytes) (key : Bytes) (msg : Bytes) : Bytes :=
  let k0 := if key.length > 64 then sha key else key
  let kp := k0 ++ List.replicate (64 - k0.length) 0
  sha ((kp.map (Nat.xor 92)) ++ sha ((kp.map (Nat.xor 54)) ++ msg))

/-- Modelled from the spec: RFC-5869 style two-stage HKDF (extract then
expand) for outputs of at most one block: PRK = HMAC(salt, secret);
OKM = HMAC(PRK, info followed by the counter byte 1), truncated. -/
def hkdf_extract_expand (sha : Bytes → Bytes) (secret : Bytes) (salt : Bytes)
    (info : Bytes) (length : Nat) : Bytes :=
  let prk := hmac sha salt secret
  (hmac sha prk (info ++ [1])).take length

end Spec

namespace Toy

open SC

/-- A toy 32-byte digest function standing in for SHA-256 in witnesses and
counterexamples: 32 output bytes, each a position-seeded fold over the
input.  It is executable and order/content sensitive. -/
def tSha (b : Bytes) : Bytes :=
  (List.range 32).map
    (fun i => (b.foldl (fun a x => (a * 67 + x + 1) % 251) (i + 5)) % 251)

/-- tSha always returns 32 bytes, as SHA-256 does. -/
theorem tSha_len : ∀ x : Bytes, (tSha x).length = 32 := by
  intro x
  simp [tSha]

/-- The numeric value of a byte string (base 256). -/
def bval (b : Bytes) : Nat := b.foldl (fun a x => a * 256 + x) 0

/-- A toy public-key map standing in for the X25519 private-to-public map:
fixed-base exponentiation modulo 251. -/
def tPub (p : Bytes) : Bytes := [5 ^ bval p % 251]

/-- A toy Diffie-Hellman exchange standing in for X25519 `exchange`:
raise the public value to the private exponent modulo 251. -/
def tDh (p q : Bytes) : Bytes := [bval q ^ bval p % 251]

/-- The toy exchange satisfies DH commutativity, the algebraic contract of
X25519: exchanging a private key with the public of another equals the
exchange the other way around. -/
theorem tDh_comm : ∀ a b : Bytes, tDh a (tPub b) = tDh b (tPub a) := by
  intro a b
  simp only [tDh, tPub, bval, List.foldl_cons, List.foldl_nil, Nat.zero_mul,
    Nat.zero_add]
  rw [← Nat.pow_mod, ← pow_mul, ← Nat.pow_mod, ← pow_mul, Nat.mul_comm]

/-- The authentication tag of the toy AEAD: a fold over key, nonce and
plaintext. -/
def tTag (k n m : Bytes) : Nat :=
  (k ++ n ++ m).foldl (fun a x => (a * 67 + x + 1) % 251) 5

/-- A toy AEAD encryption standing in for AES-GCM encrypt: the plaintext
followed by the tag byte. -/
def tEnc (k n pt : Bytes) : Bytes := pt ++ [tTag k n pt]

/-- A toy AEAD decryption standing in for AES-GCM decrypt: recompute the
tag over the body and compare with the trailing byte; `none` models the
raised `InvalidTag`. -/
def tDec (k n ct : Bytes) : Option Bytes :=
  if ct.getLast? = some (tTag k n ct.dropLast) then some ct.dropLast else none

/-- The toy AEAD satisfies the AEAD correctness contract: decryption with
the same key and nonce recovers the plaintext. -/
theorem tDec_tEnc : ∀ k n pt : Bytes, tDec k n (tEnc k n pt) = some pt := by
  intro k n pt
  simp [tDec, tEnc, List.getLast?_concat, List.dropLast_concat]

end Toy

/-- Claim C1, counterexample.  The claim says the signed-prekey signature
is a genuine asymmetric signature and "is not a keyed hash of the prekey
public bytes under the identity private key".  At the concrete generated
identity below (toy primitives, identity private key [1, 2], signed-prekey
private key [3]) the signature field equals exactly that keyed hash
(`Spec.prekeyKeyedHash`), proving the negation of that clause: no
asymmetric signing happens anywhere in `generate_identity`. -/
theorem C1_counterexample :
    (SC.generate_identity Toy.tSha Toy.tPub [1, 2] [3]).signed_prekey_sig_b64
      = Spec.prekeyKeyedHash Toy.tSha [1, 2] (Toy.tPub [3]) := by
  decide

/-- Claim C1, amended.  For every generated identity (both engines share
the same `generate_identity`), the signed_prekey_sig field is the keyed
hash of the signed-prekey public bytes under the identity private key:
SHA-256(identity_priv ++ spk_pub ++ b"sig") truncated to 32 bytes, i.e.
`hkdf(spk_pub, salt=identity_priv, info=b"sig", length=32)`.  It is not
produced by any asymmetric signature primitive. -/
theorem C1_signature_is_keyed_hash (sha pubKey : SC.Bytes → SC.Bytes)
    (identity_priv spk_priv : SC.Bytes) :
    (SC.generate_identity sha pubKey identity_priv spk_priv).signed_prekey_sig_b64
      = Spec.prekeyKeyedHash sha identity_priv (pubKey spk_priv) := by
  simp [SC.generate_identity, Spec.prekeyKeyedHash, SC.hkdf, SC.Hash.update,
    SC.Hash.finalize, SC.b64e]

/-- Claim C7, counterexample.  The claim says the shared secret is derived
by a full two-stage HKDF (extract-and-expand), not a single hash of the
concatenated inputs.  At a concrete input the source `hkdf` differs from
the two-stage extract-and-expand the spec prescribes, so the source
derivation is not that construction. -/
theorem C7_counterexample :
    SC.hkdf Toy.tSha [1, 2] [3] [4] 32
      ≠ Spec.hkdf_extract_expand Toy.tSha [1, 2] [3] [4] 32 := by
  decide

/-- Claim C7, amended.  The `hkdf` helper used for every derivation in both
engines (including the X3DH master secret) is a single SHA-256 digest of
salt ++ secret ++ info, truncated to the requested length — not a two-stage
extract-and-expand. -/
theorem C7_hkdf_single_hash (sha : SC.Bytes → SC.Bytes)
    (secret salt info : SC.Bytes) (length : Nat) :
    SC.hkdf sha secret salt info length
      = (sha (salt ++ secret ++ info)).take length := by
  simp [SC.hkdf, SC.Hash.update, SC.Hash.finalize]

/-- Claim C10: for every secret, salt, info and requested length, `hkdf`
returns exactly min(length, 32) bytes, because it truncates a single
32-byte SHA-256 digest; in particular requesting more than 32 bytes
silently returns only 32. -/
theorem C10_hkdf_length (sha : SC.Bytes → SC.Bytes)
    (h32 : ∀ x, (sha x).length = 32)
    (secret salt info : SC.Bytes) (length : Nat) :
    (SC.hkdf sha secret salt info length).length = min length 32 := by
  simp [SC.hkdf, SC.Hash.update, SC.Hash.finalize, List.length_take, h32]

/-- Claim C10, witness: with the toy 32-byte digest, requesting 40 bytes
returns min 40 32 = 32 bytes. -/
theorem C10_witness :
    (∀ x, (Toy.tSha x).length = 32)
    ∧ (SC.hkdf Toy.tSha [1, 2] [3] [4] 40).length = min 40 32 :=
  And.intro Toy.tSha_len (C10_hkdf_length Toy.tSha Toy.tSha_len [1, 2] [3] [4] 40)

/-- Claim C2, counterexample.  The claim says a failed decryption leaves
the ratchet state unchanged.  In the v6 engine, decrypting a garbage
packet (empty ciphertext, so the tag check fails) from the concrete state
below returns the InvalidTag error, yet the resulting state differs from
the original: the receive chain key was already advanced when the
exception was raised. -/
theorem C2_counterexample :
    (V6.ratchet_decrypt Toy.tSha Toy.tDec (V6.RatchetState.mk [1] [1] [1])
        (SC.Packet.mk [7] [])).1 = Except.error SC.CryptoError.invalidTag
    ∧ (V6.ratchet_decrypt Toy.tSha Toy.tDec (V6.RatchetState.mk [1] [1] [1])
        (SC.Packet.mk [7] [])).2 ≠ V6.RatchetState.mk [1] [1] [1] := by
  decide

/-- Claim C2, amended.  In the v6 engine every decryption call — successful
or not — replaces chain_key_recv with the next chain key (the in-place
mutation precedes the tag check, so it survives a raised InvalidTag),
leaving root_key and chain_key_send unchanged; the v7 engine's decrypt
returns the state unchanged whether or not the tag verifies. -/
theorem C2_failed_decrypt_mutates_v6 (sha : SC.Bytes → SC.Bytes)
    (aeDec : SC.Bytes → SC.Bytes → SC.Bytes → Option SC.Bytes)
    (s6 : V6.RatchetState) (s7 : V7.RatchetState) (p : SC.Packet) :
    (V6.ratchet_decrypt sha aeDec s6 p).2
        = V6.RatchetState.mk s6.root_key s6.chain_key_send
            (V6.kdf_chain sha s6.chain_key_recv SC.bs_recv).1
    ∧ (V7.ratchet_decrypt sha aeDec s7 p).2 = s7 := by
  constructor
  · cases h : aeDec (V6.kdf_chain sha s6.chain_key_recv SC.bs_recv).2
        (SC.b64d p.nonce_b64) (SC.b64d p.ct_b64) <;>
      simp [V6.ratchet_decrypt, h]
  · cases h : aeDec (V7.derive_msg_key sha s7.root_key)
        (SC.b64d p.nonce_b64) (SC.b64d p.ct_b64) <;>
      simp [V7.ratchet_decrypt, h]

/-- Claim C4, counterexample.  The claim says every encryption advances the
sending chain and no message key is used for two encryptions.  In the v7
backend engine the session state after a send equals the state before it
(ratchet_encrypt returns only the packet and message_send writes nothing
back), so the message key derived for the next encryption is the same key
again — the concrete run below exhibits the reuse. -/
theorem C4_counterexample :
    (V7.message_send Toy.tSha Toy.tEnc (V7.RatchetState.mk [1]) [42] [7]).2
      = V7.RatchetState.mk [1]
    ∧ V7.derive_msg_key Toy.tSha
        ((V7.message_send Toy.tSha Toy.tEnc (V7.RatchetState.mk [1]) [42] [7]).2).root_key
      = V7.derive_msg_key Toy.tSha [1] := by
  decide

/-- Claim C4, amended.  The v6 engine does advance the sending chain on
every encryption: the post-state replaces chain_key_send with the next
chain key of `kdf_chain` (root and receive chain untouched).  The v7
backend engine performs no chain advance at all: the session state after a
send is the state before it, and every message key is derived from the
same static root key. -/
theorem C4_chain_advance_v6_only (sha : SC.Bytes → SC.Bytes)
    (aeEnc : SC.Bytes → SC.Bytes → SC.Bytes → SC.Bytes)
    (s6 : V6.RatchetState) (s7 : V7.RatchetState) (pt nonce : SC.Bytes) :
    (V6.ratchet_encrypt sha aeEnc s6 pt nonce).2
        = V6.RatchetState.mk s6.root_key
            (V6.kdf_chain sha s6.chain_key_send SC.bs_send).1 s6.chain_key_recv
    ∧ (V7.message_send sha aeEnc s7 pt nonce).2 = s7 :=
  And.intro rfl rfl

/-- Claim C3, counterexample.  The claim says decrypting the same packet
twice succeeds the first time and fails the second time with a replay
error.  In the v7 backend engine the concrete run below decrypts the same
packet successfully twice: nothing is consumed and no replay error
exists. -/
theorem C3_counterexample :
    (V7.ratchet_decrypt Toy.tSha Toy.tDec (V7.RatchetState.mk [1])
        (V7.ratchet_encrypt Toy.tSha Toy.tEnc (V7.RatchetState.mk [1]) [42] [7])).1
      = Except.ok [42]
    ∧ (V7.ratchet_decrypt Toy.tSha Toy.tDec
        (V7.ratchet_decrypt Toy.tSha Toy.tDec (V7.RatchetState.mk [1])
          (V7.ratchet_encrypt Toy.tSha Toy.tEnc (V7.RatchetState.mk [1]) [42] [7])).2
        (V7.ratchet_encrypt Toy.tSha Toy.tEnc (V7.RatchetState.mk [1]) [42] [7])).1
      = Except.ok [42] := by
  decide

/-- Claim C3, amended.  In the v7 backend engine decryption is stateless:
for every state and every packet produced by encrypt, the first and the
second decryption of that same packet both succeed with the original
plaintext and leave the state unchanged — packets are not consumed and
replay is never rejected. -/
theorem C3_replay_not_rejected_v7 (sha : SC.Bytes → SC.Bytes)
    (aeEnc : SC.Bytes → SC.Bytes → SC.Bytes → SC.Bytes)
    (aeDec : SC.Bytes → SC.Bytes → SC.Bytes → Option SC.Bytes)
    (hdec : ∀ k n m, aeDec k n (aeEnc k n m) = some m)
    (s : V7.RatchetState) (pt nonce : SC.Bytes) :
    V7.ratchet_decrypt sha aeDec s (V7.ratchet_encrypt sha aeEnc s pt nonce)
      = (Except.ok pt, s)
    ∧ V7.ratchet_decrypt sha aeDec
        (V7.ratchet_decrypt sha aeDec s (V7.ratchet_encrypt sha aeEnc s pt nonce)).2
        (V7.ratchet_encrypt sha aeEnc s pt nonce)
      = (Except.ok pt, s) := by
  have h1 : V7.ratchet_decrypt sha aeDec s (V7.ratchet_encrypt sha aeEnc s pt nonce)
      = (Except.ok pt, s) := by
    simp [V7.ratchet_decrypt, V7.ratchet_encrypt, SC.b64e, SC.b64d, hdec]
  exact And.intro h1 (by rw [h1]; exact h1)

/-- Claim C3, witness: the amended replay behaviour at a concrete state and
packet, with the toy AEAD discharging the AEAD-correctness hypothesis. -/
theorem C3_witness :
    (∀ k n m, Toy.tDec k n (Toy.tEnc k n m) = some m)
    ∧ (V7.ratchet_decrypt Toy.tSha Toy.tDec (V7.RatchetState.mk [1])
          (V7.ratchet_encrypt Toy.tSha Toy.tEnc (V7.RatchetState.mk [1]) [42] [7])
        = (Except.ok [42], V7.RatchetState.mk [1])
       ∧ V7.ratchet_decrypt Toy.tSha Toy.tDec
          (V7.ratchet_decrypt Toy.tSha Toy.tDec (V7.RatchetState.mk [1])
            (V7.ratchet_encrypt Toy.tSha Toy.tEnc (V7.RatchetState.mk [1]) [42] [7])).2
          (V7.ratchet_encrypt Toy.tSha Toy.tEnc (V7.RatchetState.mk [1]) [42] [7])
        = (Except.ok [42], V7.RatchetState.mk [1])) :=
  And.intro Toy.tDec_tEnc
    (C3_replay_not_rejected_v7 Toy.tSha Toy.tEnc Toy.tDec Toy.tDec_tEnc
      (V7.RatchetState.mk [1]) [42] [7])

/-- Claim C8, counterexample.  The claim says decrypt(encrypt(state, m))
recovers m for the paired state.  In the v6 engine the paired state (as
`src/main.py` session_init builds it: root, sending chain and receiving
chain all equal to the master secret, and `message/poll` decrypts with the
session state left by the send) can never decrypt the packet: the sender
derived the message key with info b"msg"+b"send" while the receiver
derives it with info b"msg"+b"recv", so the keys differ and the concrete
round trip below fails with InvalidTag. -/
theorem C8_counterexample :
    (V6.ratchet_decrypt Toy.tSha Toy.tDec
        (V6.ratchet_encrypt Toy.tSha Toy.tEnc (V6.RatchetState.mk [1] [1] [1]) [42] [7]).2
        (V6.ratchet_encrypt Toy.tSha Toy.tEnc (V6.RatchetState.mk [1] [1] [1]) [42] [7]).1).1
      = Except.error SC.CryptoError.invalidTag := by
  decide

/-- Claim C8, amended.  Round trip holds for the v7 backend engine, whose
paired states share the same root_key (session_init stores the same
master secret under both directions): for every state, every plaintext —
including the empty one — and every nonce, decrypting the packet produced
by encrypt yields exactly the plaintext and the unchanged state.  In the
v6 engine the send and receive chains derive message keys under different
info labels, so the round trip fails. -/
theorem C8_roundtrip_v7 (sha : SC.Bytes → SC.Bytes)
    (aeEnc : SC.Bytes → SC.Bytes → SC.Bytes → SC.Bytes)
    (aeDec : SC.Bytes → SC.Bytes → SC.Bytes → Option SC.Bytes)
    (hdec : ∀ k n m, aeDec k n (aeEnc k n m) = some m)
    (s : V7.RatchetState) (pt nonce : SC.Bytes) :
    V7.ratchet_decrypt sha aeDec s (V7.ratchet_encrypt sha aeEnc s pt nonce)
      = (Except.ok pt, s) := by
  simp [V7.ratchet_decrypt, V7.ratchet_encrypt, SC.b64e, SC.b64d, hdec]

/-- Claim C8, witness: the v7 round trip at a concrete state with the
empty plaintext, the toy AEAD discharging the correctness hypothesis. -/
theorem C8_witness :
    (∀ k n m, Toy.tDec k n (Toy.tEnc k n m) = some m)
    ∧ V7.ratchet_decrypt Toy.tSha Toy.tDec (V7.RatchetState.mk [5])
        (V7.ratchet_encrypt Toy.tSha Toy.tEnc (V7.RatchetState.mk [5]) [] [9])
      = (Except.ok [], V7.RatchetState.mk [5]) :=
  And.intro Toy.tDec_tEnc
    (C8_roundtrip_v7 Toy.tSha Toy.tEnc Toy.tDec Toy.tDec_tEnc (V7.RatchetState.mk [5]) [] [9])

/-- Claim C9, counterexample.  The claim says encrypting m1, m2, m3 in
order and delivering m3 first yields successful decryption of all three.
In the v6 engine the concrete run below (paired state as session_init
builds it, three sends, then the m3 packet presented first) fails already
on the first delivered packet with InvalidTag. -/
theorem C9_counterexample :
    (V6.ratchet_decrypt Toy.tSha Toy.tDec
        (V6.ratchet_encrypt Toy.tSha Toy.tEnc
          (V6.ratchet_encrypt Toy.tSha Toy.tEnc
            (V6.ratchet_encrypt Toy.tSha Toy.tEnc
              (V6.RatchetState.mk [1] [1] [1]) [65] [10]).2 [66] [11]).2 [67] [12]).2
        (V6.ratchet_encrypt Toy.tSha Toy.tEnc
          (V6.ratchet_encrypt Toy.tSha Toy.tEnc
            (V6.ratchet_encrypt Toy.tSha Toy.tEnc
              (V6.RatchetState.mk [1] [1] [1]) [65] [10]).2 [66] [11]).2 [67] [12]).1).1
      = Except.error SC.CryptoError.invalidTag := by
  decide

/-- Claim C9, amended.  In the v7 backend engine delivery order is
irrelevant because decryption is stateless: encrypting m1, m2, m3 from the
session state (which the send path never changes) and delivering the
packets in the order m3, m1, m2 decrypts each to its original plaintext —
though nothing enforces at-most-once consumption.  In the v6 engine even
the first out-of-order packet fails to decrypt. -/
theorem C9_out_of_order_v7 (sha : SC.Bytes → SC.Bytes)
    (aeEnc : SC.Bytes → SC.Bytes → SC.Bytes → SC.Bytes)
    (aeDec : SC.Bytes → SC.Bytes → SC.Bytes → Option SC.Bytes)
    (hdec : ∀ k n m, aeDec k n (aeEnc k n m) = some m)
    (s : V7.RatchetState) (m1 m2 m3 n1 n2 n3 : SC.Bytes) :
    V7.ratchet_decrypt sha aeDec s (V7.ratchet_encrypt sha aeEnc s m3 n3)
      = (Except.ok m3, s)
    ∧ V7.ratchet_decrypt sha aeDec
        (V7.ratchet_decrypt sha aeDec s (V7.ratchet_encrypt sha aeEnc s m3 n3)).2
        (V7.ratchet_encrypt sha aeEnc s m1 n1)
      = (Except.ok m1, s)
    ∧ V7.ratchet_decrypt sha aeDec
        (V7.ratchet_decrypt sha aeDec
          (V7.ratchet_decrypt sha aeDec s (V7.ratchet_encrypt sha aeEnc s m3 n3)).2
          (V7.ratchet_encrypt sha aeEnc s m1 n1)).2
        (V7.ratchet_encrypt sha aeEnc s m2 n2)
      = (Except.ok m2, s) := by
  have hgen : ∀ m n : SC.Bytes,
      V7.ratchet_decrypt sha aeDec s (V7.ratchet_encrypt sha aeEnc s m n)
        = (Except.ok m, s) := by
    intro m n
    simp [V7.ratchet_decrypt, V7.ratchet_encrypt, SC.b64e, SC.b64d, hdec]
  have h3 := hgen m3 n3
  have h1 : V7.ratchet_decrypt sha aeDec
      (V7.ratchet_decrypt sha aeDec s (V7.ratchet_encrypt sha aeEnc s m3 n3)).2
      (V7.ratchet_encrypt sha aeEnc s m1 n1) = (Except.ok m1, s) := by
    rw [h3]
    exact hgen m1 n1
  have h2 : V7.ratchet_decrypt sha aeDec
      (V7.ratchet_decrypt sha aeDec
        (V7.ratchet_decrypt sha aeDec s (V7.ratchet_encrypt sha aeEnc s m3 n3)).2
        (V7.ratchet_encrypt sha aeEnc s m1 n1)).2
      (V7.ratchet_encrypt sha aeEnc s m2 n2) = (Except.ok m2, s) := by
    rw [h1]
    exact hgen m2 n2
  exact And.intro h3 (And.intro h1 h2)

/-- Claim C9, witness: the v7 out-of-order scenario at concrete plaintexts
m1 = [65], m2 = [66], m3 = [67], delivered m3, m1, m2, with the toy AEAD
discharging the correctness hypothesis. -/
theorem C9_witness :
    (∀ k n m, Toy.tDec k n (Toy.tEnc k n m) = some m)
    ∧ (V7.ratchet_decrypt Toy.tSha Toy.tDec (V7.RatchetState.mk [2])
          (V7.ratchet_encrypt Toy.tSha Toy.tEnc (V7.RatchetState.mk [2]) [67] [12])
        = (Except.ok [67], V7.RatchetState.mk [2])
       ∧ V7.ratchet_decrypt Toy.tSha Toy.tDec
          (V7.ratchet_decrypt Toy.tSha Toy.tDec (V7.RatchetState.mk [2])
            (V7.ratchet_encrypt Toy.tSha Toy.tEnc (V7.RatchetState.mk [2]) [67] [12])).2
          (V7.ratchet_encrypt Toy.tSha Toy.tEnc (V7.RatchetState.mk [2]) [65] [10])
        = (Except.ok [65], V7.RatchetState.mk [2])
       ∧ V7.ratchet_decrypt Toy.tSha Toy.tDec
          (V7.ratchet_decrypt Toy.tSha Toy.tDec
            (V7.ratchet_decrypt Toy.tSha Toy.tDec (V7.RatchetState.mk [2])
              (V7.ratchet_encrypt Toy.tSha Toy.tEnc (V7.RatchetState.mk [2]) [67] [12])).2
            (V7.ratchet_encrypt Toy.tSha Toy.tEnc (V7.RatchetState.mk [2]) [65] [10])).2
          (V7.ratchet_encrypt Toy.tSha Toy.tEnc (V7.RatchetState.mk [2]) [66] [11])
        = (Except.ok [66], V7.RatchetState.mk [2])) :=
  And.intro Toy.tDec_tEnc
    (C9_out_of_order_v7 Toy.tSha Toy.tEnc Toy.tDec Toy.tDec_tEnc
      (V7.RatchetState.mk [2]) [65] [66] [67] [10] [11] [12])

/-- Claim C5: handshake symmetry.  For all identity, signed-prekey and
one-time-prekey material, the secret `x3dh_sender` derives from the
responder public bundle equals the secret the responder recomputes
(`Spec.x3dh_receiver`, modelled from the spec, since src/ has no responder
side) from its own private keys and the initiator public identity and
ephemeral keys; the only assumption is DH commutativity of the underlying
exchange, which X25519 satisfies.  Both the bundle-without-prekey and the
bundle-with-prekey cases are covered (the offered one-time prekey public
key must be nonempty, as the Python truthiness guard drops empty
strings). -/
theorem C5_handshake_symmetry (sha : SC.Bytes → SC.Bytes)
    (dh : SC.Bytes → SC.Bytes → SC.Bytes) (pubKey : SC.Bytes → SC.Bytes)
    (hcomm : ∀ a b, dh a (pubKey b) = dh b (pubKey a))
    (ik_s ek_s ik_r spk_r opk_r sig : SC.Bytes)
    (hne : pubKey opk_r ≠ []) :
    (SC.x3dh_sender sha dh (SC.b64e ik_s) (SC.b64e ek_s)
        (SC.RecvBundle.mk (SC.b64e (pubKey ik_r)) (SC.b64e (pubKey spk_r)) sig) none
      = Spec.x3dh_receiver sha dh ik_r spk_r none (pubKey ik_s) (pubKey ek_s))
    ∧ (SC.x3dh_sender sha dh (SC.b64e ik_s) (SC.b64e ek_s)
        (SC.RecvBundle.mk (SC.b64e (pubKey ik_r)) (SC.b64e (pubKey spk_r)) sig)
        (some (SC.b64e (pubKey opk_r)))
      = Spec.x3dh_receiver sha dh ik_r spk_r (some opk_r) (pubKey ik_s) (pubKey ek_s)) := by
  constructor
  · simp only [SC.x3dh_sender, Spec.x3dh_receiver, SC.b64e, SC.b64d]
    rw [hcomm ik_s spk_r, hcomm ek_s ik_r, hcomm ek_s spk_r]
  · simp only [SC.x3dh_sender, Spec.x3dh_receiver, SC.b64e, SC.b64d, if_neg hne]
    rw [hcomm ik_s spk_r, hcomm ek_s ik_r, hcomm ek_s spk_r, hcomm ek_s opk_r]

/-- Claim C5, witness: the symmetry at concrete key material under the toy
commutative Diffie-Hellman. -/
theorem C5_witness :
    (∀ a b, Toy.tDh a (Toy.tPub b) = Toy.tDh b (Toy.tPub a))
    ∧ Toy.tPub [6] ≠ []
    ∧ ((SC.x3dh_sender Toy.tSha Toy.tDh (SC.b64e [1]) (SC.b64e [2])
          (SC.RecvBundle.mk (SC.b64e (Toy.tPub [3])) (SC.b64e (Toy.tPub [4])) [9]) none
        = Spec.x3dh_receiver Toy.tSha Toy.tDh [3] [4] none (Toy.tPub [1]) (Toy.tPub [2]))
       ∧ (SC.x3dh_sender Toy.tSha Toy.tDh (SC.b64e [1]) (SC.b64e [2])
          (SC.RecvBundle.mk (SC.b64e (Toy.tPub [3])) (SC.b64e (Toy.tPub [4])) [9])
          (some (SC.b64e (Toy.tPub [6])))
        = Spec.x3dh_receiver Toy.tSha Toy.tDh [3] [4] (some [6]) (Toy.tPub [1]) (Toy.tPub [2]))) :=
  And.intro Toy.tDh_comm (And.intro (by decide)
    (C5_handshake_symmetry Toy.tSha Toy.tDh Toy.tPub Toy.tDh_comm
      [1] [2] [3] [4] [6] [9] (by decide)))

/-- Claim C6: `x3dh_sender` computes DH1 = DH(local identity priv, remote
signed-prekey pub), DH2 = DH(local ephemeral priv, remote identity pub),
DH3 = DH(local ephemeral priv, remote signed-prekey pub), and DH4 =
DH(local ephemeral priv, remote one-time-prekey pub) exactly when a
(nonempty) one-time prekey is offered, concatenates them in this fixed
order followed by the context label b"X3DH", hashes once, and returns a
32-byte secret. -/
theorem C6_x3dh_dh_structure (sha : SC.Bytes → SC.Bytes)
    (dh : SC.Bytes → SC.Bytes → SC.Bytes)
    (h32 : ∀ x, (sha x).length = 32)
    (ik ek : SC.Bytes) (b : SC.RecvBundle) (opk : SC.Bytes) (hne : opk ≠ []) :
    (SC.x3dh_sender sha dh ik ek b (some opk)
       = sha (dh ik b.signed_prekey_pub_b64 ++ dh ek b.identity_pub_b64
              ++ dh ek b.signed_prekey_pub_b64 ++ dh ek opk ++ SC.bs_X3DH))
    ∧ (SC.x3dh_sender sha dh ik ek b none
       = sha (dh ik b.signed_prekey_pub_b64 ++ dh ek b.identity_pub_b64
              ++ dh ek b.signed_prekey_pub_b64 ++ SC.bs_X3DH))
    ∧ (SC.x3dh_sender sha dh ik ek b (some opk)).length = 32
    ∧ (SC.x3dh_sender sha dh ik ek b none).length = 32 := by
  have htake : ∀ y, (sha y).take 32 = sha y := fun y =>
    List.take_of_length_le (le_of_eq (h32 y))
  have h1 : SC.x3dh_sender sha dh ik ek b (some opk)
      = sha (dh ik b.signed_prekey_pub_b64 ++ dh ek b.identity_pub_b64
             ++ dh ek b.signed_prekey_pub_b64 ++ dh ek opk ++ SC.bs_X3DH) := by
    simp only [SC.x3dh_sender, SC.hkdf, SC.Hash.update, SC.Hash.finalize, SC.b64d,
      List.nil_append, List.append_nil, if_neg hne]
    exact htake _
  have h2 : SC.x3dh_sender sha dh ik ek b none
      = sha (dh ik b.signed_prekey_pub_b64 ++ dh ek b.identity_pub_b64
             ++ dh ek b.signed_prekey_pub_b64 ++ SC.bs_X3DH) := by
    simp only [SC.x3dh_sender, SC.hkdf, SC.Hash.update, SC.Hash.finalize, SC.b64d,
      List.nil_append, List.append_nil]
    exact htake _
  refine And.intro h1 (And.intro h2 (And.intro ?_ ?_))
  · rw [h1, h32]
  · rw [h2, h32]

/-- Claim C6, witness: the DH structure and the 32-byte output at concrete
key material with the toy primitives. -/
theorem C6_witness :
    (∀ x, (Toy.tSha x).length = 32)
    ∧ (([6] : SC.Bytes) ≠ [])
    ∧ ((SC.x3dh_sender Toy.tSha Toy.tDh [1] [2] (SC.RecvBundle.mk [3] [4] [9]) (some [6])
         = Toy.tSha (Toy.tDh [1] [4] ++ Toy.tDh [2] [3] ++ Toy.tDh [2] [4]
                     ++ Toy.tDh [2] [6] ++ SC.bs_X3DH))
       ∧ (SC.x3dh_sender Toy.tSha Toy.tDh [1] [2] (SC.RecvBundle.mk [3] [4] [9]) none
         = Toy.tSha (Toy.tDh [1] [4] ++ Toy.tDh [2] [3] ++ Toy.tDh [2] [4] ++ SC.bs_X3DH))
       ∧ (SC.x3dh_sender Toy.tSha Toy.tDh [1] [2] (SC.RecvBundle.mk [3] [4] [9]) (some [6])).length = 32
       ∧ (SC.x3dh_sender Toy.tSha Toy.tDh [1] [2] (SC.RecvBundle.mk [3] [4] [9]) none).length = 32) :=
  And.intro Toy.tSha_len (And.intro (by decide)
    (C6_x3dh_dh_structure Toy.tSha Toy.tDh Toy.tSha_len [1] [2]
      (SC.RecvBundle.mk [3] [4] [9]) [6] (by decide)))
